import Mathlib

/-!
Verification development for the MultiSourceContentSystem repository.

The repository has four Python source files:
* `youtube_summarizer.py` — transcript grouping (`extract_transcript_details`)
  and the Groq completion client (`call_groq_api`);
* `web_summarizer.py` — webpage chunking (`chunk_webpage_content`), the
  webpage Groq completion client (`call_groq_api_for_webpage`), and the
  hierarchical summarizer (`summarize_webpage`);
* `rag_qa.py` — the `MultiFormatRAG` class: `load_documents`,
  `process_documents`, `create_qa_chain`, `query`;
* `app.py` — the Streamlit UI (out of scope here except as a caller).

External network and library effects (HTTP responses, document-format
loaders, the text splitter, the vector store) are modelled as explicit
parameters or as an inductive type of observable outcomes, and the control
flow of each Python function is translated statement by statement.
-/

set_option maxHeartbeats 1000000

namespace MultiSource

/-- Python str.strip at the character-list level: drop leading and trailing
whitespace characters. -/
def pyStripChars (cs : List Char) : List Char :=
  ((cs.dropWhile Char.isWhitespace).reverse.dropWhile Char.isWhitespace).reverse

/-- Python str.strip on a string. -/
def pyStrip (s : String) : String := String.mk (pyStripChars s.data)

/-- Python str.lower (ASCII case folding, which is all the loader map needs). -/
def pyLower (s : String) : String := String.mk (s.data.map Char.toLower)

/-- Observable outcome of one `requests.post` attempt against the Groq
chat-completions endpoint, as seen by the calling code:
* `success content` — HTTP 200 whose `choices[0].message.content` field is
  structurally present (`some s`) or structurally absent (`none`);
* `rateLimited` — HTTP 429;
* `badStatus code body` — any other HTTP status with its body text;
* `timeout` — the transport raised `requests.exceptions.Timeout`;
* `exc msg` — the transport raised some other exception. -/
inductive GroqResponse where
  | success (content : Option String)
  | rateLimited
  | badStatus (code : Nat) (body : String)
  | timeout
  | exc (msg : String)

/-- Python expression
`response.json().get("choices", [ ])[0].get("message", ).get("content", "No response from model.").strip()`:
the content field when structurally present, otherwise the placeholder
default, then str.strip. -/
def extractContent (content : Option String) : String :=
  pyStrip (content.getD "No response from model.")

/-- Result of running one of the two Groq client functions against a
sequence of per-attempt responses: `result` is `Except.ok s` when the
function returns the string `s`, and `Except.error e` when an exception
propagates out of the function; `sleeps` is the list of `time.sleep`
durations (in seconds) in order; `calls` is the number of HTTP POST
attempts actually issued. -/
structure GroqRun where
  result : Except String String
  sleeps : List Nat
  calls : Nat

/-- The retry loop of `youtube_summarizer.call_groq_api`, lines 70-82:
`for attempt in range(3)` with no try/except around `requests.post`.
HTTP 200 returns the extracted content; HTTP 429 sleeps
`min(60, 2 ** attempt * 10)` and continues; any other status returns
`"Error: status, body"`; a transport exception propagates (there is no
handler).  Falling off the loop returns the terminal retry message. -/
def groqLoopY (resp : Nat → GroqResponse) : List Nat → GroqRun
  | [] => ⟨Except.ok "Error: Too many retries due to rate limit.", [], 0⟩
  | a :: rest =>
    match resp a with
    | GroqResponse.success c => ⟨Except.ok (extractContent c), [], 1⟩
    | GroqResponse.rateLimited =>
      let r := groqLoopY resp rest
      ⟨r.result, min 60 (2 ^ a * 10) :: r.sleeps, r.calls + 1⟩
    | GroqResponse.badStatus code body =>
      ⟨Except.ok ("Error: " ++ toString code ++ ", " ++ body), [], 1⟩
    | GroqResponse.timeout =>
      ⟨Except.error "requests.exceptions.Timeout", [], 1⟩
    | GroqResponse.exc m => ⟨Except.error m, [], 1⟩

/-- youtube_summarizer.call_groq_api: the loop runs over attempts 0, 1, 2. -/
def call_groq_api (resp : Nat → GroqResponse) : GroqRun :=
  groqLoopY resp [0, 1, 2]

/-- The retry loop of `web_summarizer.call_groq_api_for_webpage`, lines
124-142: identical to the youtube loop except that the request body is
wrapped in try/except — `requests.exceptions.Timeout` is converted to the
string `"Error: Request timeout. Please try again."` and any other
exception to `"Error: " ++ str(e)`; both returns happen immediately,
without retrying. -/
def groqLoopW (resp : Nat → GroqResponse) : List Nat → GroqRun
  | [] => ⟨Except.ok "Error: Too many retries due to rate limit.", [], 0⟩
  | a :: rest =>
    match resp a with
    | GroqResponse.success c => ⟨Except.ok (extractContent c), [], 1⟩
    | GroqResponse.rateLimited =>
      let r := groqLoopW resp rest
      ⟨r.result, min 60 (2 ^ a * 10) :: r.sleeps, r.calls + 1⟩
    | GroqResponse.badStatus code body =>
      ⟨Except.ok ("Error: " ++ toString code ++ ", " ++ body), [], 1⟩
    | GroqResponse.timeout =>
      ⟨Except.ok "Error: Request timeout. Please try again.", [], 1⟩
    | GroqResponse.exc m => ⟨Except.ok ("Error: " ++ m), [], 1⟩

/-- web_summarizer.call_groq_api_for_webpage: the loop runs over attempts
0, 1, 2. -/
def call_groq_api_for_webpage (resp : Nat → GroqResponse) : GroqRun :=
  groqLoopW resp [0, 1, 2]

/-- A loaded document record (langchain Document): a unit of text with its
provenance, kept abstract beyond those two fields. -/
structure Record where
  text : String
  source : String
deriving DecidableEq

/-- The keys of `MultiFormatRAG.loader_map` (rag_qa.py lines 19-26). -/
def loader_map_exts : List String :=
  [".pdf", ".docx", ".txt", ".csv", ".html", ".md"]

/-- Python `os.path.splitext(p)[1]` for a bare file name (no directory
separators, as produced by os.listdir): the extension starts at the last
dot, except that a name whose characters before the last dot are all dots
has no extension (posixpath splitext skips leading dots). -/
def splitextExt (p : String) : String :=
  match p.data.reverse.findIdx? (fun c => c = '.') with
  | none => ""
  | some ridx =>
    let dotIdx := p.data.length - 1 - ridx
    if (p.data.take dotIdx).any (fun c => c ≠ '.') then
      String.mk (p.data.drop dotIdx)
    else ""

/-- One iteration of the `for file in os.listdir(directory_path)` loop of
`MultiFormatRAG.load_documents` (rag_qa.py lines 49-62): if the lowercased
extension is a loader_map key, run the loader; on success extend the
accumulated documents, on an exception log and continue; unrecognized
extensions are skipped silently.  The format-specific loader library call
is the external capability `load`. -/
def loadStep (load : String → Except String (List Record))
    (documents : List Record) (file : String) : List Record :=
  if pyLower (splitextExt file) ∈ loader_map_exts then
    match load file with
    | Except.ok docs => documents ++ docs
    | Except.error _ => documents
  else documents

/-- MultiFormatRAG.load_documents (rag_qa.py lines 44-63): fold the loop
body over the directory listing, starting from the empty list. -/
def load_documents (load : String → Except String (List Record))
    (files : List String) : List Record :=
  files.foldl (loadStep load) []

/-- Spec-side restatement of the loader contract (spec section 4.1), used
as the refinement target for the claim about load_documents: the
concatenation, in listing order, of the records of every recognized file
whose extraction succeeds; failing and unrecognized files contribute
nothing. -/
def loader_spec_concat (load : String → Except String (List Record)) :
    List String → List Record
  | [] => []
  | f :: fs =>
    (if pyLower (splitextExt f) ∈ loader_map_exts then
      (match load f with
       | Except.ok ds => ds
       | Except.error _ => [])
     else []) ++ loader_spec_concat load fs

/-- MultiFormatRAG.process_documents (rag_qa.py lines 65-75):
`if not documents: return None`, otherwise split the documents and build
the vector store.  The text splitter and `FAISS.from_documents` are the
external capabilities `split` and `fromDocuments`; the vector-store type
`V` is abstract. -/
def process_documents {V : Type} (split : List Record → List Record)
    (fromDocuments : List Record → V) (documents : List Record) : Option V :=
  if documents = [] then none
  else some (fromDocuments (split documents))

/-- The system_prompt string of `MultiFormatRAG.create_qa_chain`
(rag_qa.py lines 81-85). -/
def system_prompt : String :=
  "You are a conversational AI chatbot developed to replicate Basavaraj C Kkallapur, an accomplished professional with a proven track record in digital strategy, product innovation, and strategic investment management. "

/-- The anti-hallucination instruction embedded verbatim in the prompt
template (rag_qa.py lines 92-93): restrict answers to the provided context
and mandate the fixed fallback phrase. -/
def antiHallucinationInstruction : String :=
  "Please answer the following question strictly based on the provided context. If the answer is not found in the context, say \x27I don\x27t know\x27."

/-- The PromptTemplate of create_qa_chain (rag_qa.py lines 88-98), rendered
at a concrete context and question: the template surrounds the two
substitution slots with fixed text, so rendering is string concatenation. -/
def prompt_template (context question : String) : String :=
  system_prompt ++ "\n\n" ++ antiHallucinationInstruction ++ "\n\n" ++
    "Context:\n" ++ context ++ "\n\n" ++ "Question:\n" ++ question ++
    "\n\nAnswer:"

/-- The RetrievalQA chain built by create_qa_chain: the retriever wraps the
vector store with `search_kwargs` k, and the chain renders every completion
request through the prompt template. -/
structure QaChain (V : Type) where
  retriever : V
  k : Nat
  render : String → String → String

/-- MultiFormatRAG.create_qa_chain (rag_qa.py lines 77-118) as invoked by
app.py on the result of process_documents: evaluating
`vectorstore.as_retriever(search_kwargs=...)` with `vectorstore = None`
raises AttributeError (there is no None check in the function), so the
chain is only produced for a non-None vector store, with k = 5 and the
prompt template above. -/
def create_qa_chain {V : Type} (vectorstore : Option V) :
    Except String (QaChain V) :=
  match vectorstore with
  | none =>
    Except.error "AttributeError: \x27NoneType\x27 object has no attribute \x27as_retriever\x27"
  | some vs => Except.ok ⟨vs, 5, prompt_template⟩

/-- MultiFormatRAG.query (rag_qa.py lines 120-129): invoke the chain inside
try/except; on success return `response[\x27result\x27]`, on any exception
return `"Error processing query: " ++ str(e)`.  The chain invocation
(including retrieval and the LLM call) is the external capability
`invoke`, whose `Except.error` case stands for a raised exception. -/
def query (invoke : String → Except String String) (question : String) :
    String :=
  match invoke question with
  | Except.ok result => result
  | Except.error e => "Error processing query: " ++ e

/-- web_summarizer.chunk_webpage_content (lines 90-105):
`if not content or len(content) < chunk_size: return [content] if content else []`,
otherwise delegate to the RecursiveCharacterTextSplitter (the external
capability `splitText`). -/
def chunk_webpage_content (splitText : String → List String)
    (content : String) (chunk_size : Nat) : List String :=
  if content = "" ∨ content.length < chunk_size then
    (if content = "" then [] else [content])
  else splitText content

/-- The per-chunk instruction of summarize_webpage (lines 163-166): a
part-N-of-M instruction when there is more than one chunk, the
comprehensive single-pass instruction otherwise.  `n` is the total number
of chunks and `i` the zero-based loop index. -/
def chunkPrompt (n i : Nat) : String :=
  if 1 < n then
    "Summarize this part " ++ toString (i + 1) ++ " of " ++ toString n ++
      " of the webpage content. Focus on key points and main ideas:"
  else
    "Provide a comprehensive summary of this webpage content. Include key points, main ideas, and important details:"

/-- The comprehensive single-chunk instruction (line 166). -/
def comprehensive_prompt : String :=
  "Provide a comprehensive summary of this webpage content. Include key points, main ideas, and important details:"

/-- The final fold instruction of summarize_webpage (line 174). -/
def final_prompt : String :=
  "Create a comprehensive final summary of this webpage by combining all the parts. Focus on the most important information:"

/-- The `for i, chunk in enumerate(chunks)` loop of summarize_webpage
(lines 162-169), producing the per-chunk summaries in order; `i` is the
running enumerate index. -/
def pySummaries (complete : String → String → String) (n : Nat) :
    Nat → List String → List String
  | _, [] => []
  | i, c :: cs => complete (chunkPrompt n i) c :: pySummaries complete n (i + 1) cs

/-- The same loop viewed as the sequence of (instruction, content) pairs
handed to call_groq_api_for_webpage, in call order. -/
def pyCalls (n : Nat) : Nat → List String → List (String × String)
  | _, [] => []
  | i, c :: cs => (chunkPrompt n i, c) :: pyCalls n (i + 1) cs

/-- The labelling comprehension of summarize_webpage line 173:
`f"Part i+1: summary"` over the enumerated summaries. -/
def pyLabel : Nat → List String → List String
  | _, [] => []
  | i, s :: ss => ("Part " ++ toString (i + 1) ++ ": " ++ s) :: pyLabel (i + 1) ss

/-- The hierarchical-summarization core of web_summarizer.summarize_webpage
(lines 160-177), starting from the already-computed chunk list: summarize
each chunk with the position-dependent instruction, then, when more than
one summary exists, join the labelled partial summaries with blank lines
and issue one final fold call; otherwise the single partial summary is the
result.  The completion capability is `complete`; the second component of
the result is the full call log in order. -/
def summarize_webpage_core (complete : String → String → String)
    (chunks : List String) : String × List (String × String) :=
  let n := chunks.length
  let summaries := pySummaries complete n 0 chunks
  let calls := pyCalls n 0 chunks
  if 1 < summaries.length then
    let combined := String.intercalate "\n\n" (pyLabel 0 summaries)
    (complete final_prompt combined, calls ++ [(final_prompt, combined)])
  else
    (summaries.headD "", calls)

/-- One entry of the fetched transcript data: a start time in seconds
(a Python float, modelled exactly as a rational) and the caption text. -/
structure TranscriptItem where
  start : ℚ
  text : String

/-- Python format spec `f"m:02"` applied to an int: pad with a leading
zero to width two. -/
def pad2 (n : ℤ) : String :=
  if 0 ≤ n ∧ n < 10 then "0" ++ toString n else toString n

/-- The timestamp string of extract_transcript_details lines 37-39:
`minutes = int(start // 60)`, `seconds = int(start % 60)`, rendered as
`f"minutes:02:seconds:02"`.  For the float operations, `//` is floor
division and `%` returns the representative in [0, 60), on which `int`
truncation coincides with floor. -/
def fmtTimestamp (start : ℚ) : String :=
  pad2 ⌊start / 60⌋ ++ ":" ++ pad2 ⌊start - 60 * ((⌊start / 60⌋ : ℤ) : ℚ)⌋

/-- The loop state of the grouping in extract_transcript_details lines
32-34: the groups emitted so far, `last_timestamp` (initially -30),
`last_timestamp_text` (initially unassigned, modelled as `none`), and
`temp_text`. -/
structure GroupState where
  transcript : List (String × String)
  lastTimestamp : ℚ
  lastTimestampText : Option String
  tempText : List String

/-- One iteration of the `for item in transcript_data` loop (lines 36-48):
when `item.start - last_timestamp >= 30`, flush the pending text (reading
`last_timestamp_text`, which raises UnboundLocalError if it was never
assigned — the `Except.error` case) and restart the group at this item;
in all cases append the item text to `temp_text`. -/
def groupStep (st : GroupState) (item : TranscriptItem) :
    Except String GroupState :=
  let timestamp := fmtTimestamp item.start
  if 30 ≤ item.start - st.lastTimestamp then
    if st.tempText ≠ [] then
      match st.lastTimestampText with
      | none => Except.error "UnboundLocalError: last_timestamp_text"
      | some label =>
        Except.ok
          (GroupState.mk
            (st.transcript ++ [(label, String.intercalate " " st.tempText)])
            item.start (some timestamp) [item.text])
    else
      Except.ok
        (GroupState.mk st.transcript item.start (some timestamp)
          (st.tempText ++ [item.text]))
  else
    Except.ok
      (GroupState.mk st.transcript st.lastTimestamp st.lastTimestampText
        (st.tempText ++ [item.text]))

/-- The grouping loop run over the whole transcript data. -/
def groupLoop (st : GroupState) : List TranscriptItem → Except String GroupState
  | [] => Except.ok st
  | it :: rest =>
    match groupStep st it with
    | Except.error e => Except.error e
    | Except.ok st' => groupLoop st' rest

/-- The transcript-grouping portion of
youtube_summarizer.extract_transcript_details (lines 32-53): run the loop
from the initial state (`last_timestamp = -30`, `last_timestamp_text`
unassigned, `temp_text = []`), then flush the final pending group (lines
50-51, which also reads `last_timestamp_text`). -/
def extract_transcript_grouping (items : List TranscriptItem) :
    Except String (List (String × String)) :=
  match groupLoop (GroupState.mk [] (-30) none []) items with
  | Except.error e => Except.error e
  | Except.ok st =>
    if st.tempText ≠ [] then
      match st.lastTimestampText with
      | none => Except.error "UnboundLocalError: last_timestamp_text"
      | some label =>
        Except.ok (st.transcript ++ [(label, String.intercalate " " st.tempText)])
    else Except.ok st.transcript

/-- Invariant of the grouping loop once the first item has been processed,
relative to the first-group label `ts0`: the label variable is assigned,
the pending text is nonempty, and either the first emitted group is already
labelled `ts0`, or nothing has been emitted yet and the pending label is
`ts0`. -/
def GroupInv (ts0 : String) (st : GroupState) : Prop :=
  st.lastTimestampText.isSome = true ∧ st.tempText ≠ [] ∧
    (st.transcript.head?.map Prod.fst = some ts0 ∨
      (st.transcript = [] ∧ st.lastTimestampText = some ts0))

/-- String concatenation is associative (via the underlying char lists). -/
theorem str_append_assoc (a b c : String) : a ++ b ++ c = a ++ (b ++ c) := by
  apply String.ext
  simp [String.data_append, List.append_assoc]

/-- The youtube client issues at most one POST per loop iteration. -/
theorem groqLoopY_calls_le (resp : Nat → GroqResponse) :
    ∀ l, (groqLoopY resp l).calls ≤ l.length := by
  intro l
  induction l with
  | nil => simp [groqLoopY]
  | cons a rest ih =>
    cases h : resp a <;> simp [groqLoopY, h]
    omega

/-- The webpage client issues at most one POST per loop iteration. -/
theorem groqLoopW_calls_le (resp : Nat → GroqResponse) :
    ∀ l, (groqLoopW resp l).calls ≤ l.length := by
  intro l
  induction l with
  | nil => simp [groqLoopW]
  | cons a rest ih =>
    cases h : resp a <;> simp [groqLoopW, h]
    omega

/-- The webpage client never lets an exception escape: every run of its
loop produces a returned string. -/
theorem groqLoopW_ok (resp : Nat → GroqResponse) :
    ∀ l, ∃ s, (groqLoopW resp l).result = Except.ok s := by
  intro l
  induction l with
  | nil => exact ⟨_, rfl⟩
  | cons a rest ih =>
    cases h : resp a
    case success c => exact ⟨extractContent c, by simp [groqLoopW, h]⟩
    case rateLimited =>
      obtain ⟨s, hs⟩ := ih
      exact ⟨s, by simp [groqLoopW, h, hs]⟩
    case badStatus code body =>
      exact ⟨"Error: " ++ toString code ++ ", " ++ body, by simp [groqLoopW, h]⟩
    case timeout =>
      exact ⟨"Error: Request timeout. Please try again.", by simp [groqLoopW, h]⟩
    case exc m => exact ⟨"Error: " ++ m, by simp [groqLoopW, h]⟩

/-- Claim C2: for every sequence of rate-limited (HTTP 429) responses, both
completion clients retry up to 3 attempts total, sleeping
`min(60, 10 * 2 ^ attempt)` seconds after each 429 (concretely 10, 20, 40),
so total sleep across the rate-limited attempts is 70 seconds, never
exceeding 90; after the 3rd rate-limited attempt they return the terminal
"too many retries" result instead of retrying further, and no run ever
issues more than 3 POST attempts. -/
theorem c2_rate_limit_backoff (resp respW : Nat → GroqResponse)
    (h : ∀ a, resp a = GroqResponse.rateLimited)
    (hW : ∀ a, respW a = GroqResponse.rateLimited) :
    call_groq_api resp =
      ⟨Except.ok "Error: Too many retries due to rate limit.", [10, 20, 40], 3⟩ ∧
    call_groq_api_for_webpage respW =
      ⟨Except.ok "Error: Too many retries due to rate limit.", [10, 20, 40], 3⟩ ∧
    (∀ a, a < 3 → [10, 20, 40].get? a = some (min 60 (10 * 2 ^ a))) ∧
    [10, 20, 40].sum = 70 ∧ (70 : Nat) ≤ 90 ∧
    (∀ r : Nat → GroqResponse,
      (call_groq_api r).calls ≤ 3 ∧ (call_groq_api_for_webpage r).calls ≤ 3) := by
  refine ⟨?_, ?_, by decide, by decide, by decide, ?_⟩
  · simp only [call_groq_api, groqLoopY, h]
    norm_num
  · simp only [call_groq_api_for_webpage, groqLoopW, hW]
    norm_num
  · intro r
    exact ⟨groqLoopY_calls_le r [0, 1, 2], groqLoopW_calls_le r [0, 1, 2]⟩

/-- Witness for C2: the all-429 response sequence realizes the hypothesis,
and the client run evaluates to the terminal result with sleeps 10, 20, 40. -/
theorem c2_rate_limit_backoff_witness :
    call_groq_api (fun _ => GroqResponse.rateLimited) =
      ⟨Except.ok "Error: Too many retries due to rate limit.", [10, 20, 40], 3⟩ :=
  (c2_rate_limit_backoff (fun _ => GroqResponse.rateLimited)
    (fun _ => GroqResponse.rateLimited) (fun _ => rfl) (fun _ => rfl)).1

/-- Claim C3 counterexample: the youtube client `call_groq_api` has no
exception handler, so on a transport timeout at the first attempt the
exception propagates out of the function — it does not return any error
string result, contradicting the claim that the completion client always
converts timeouts into a result value without raising past its boundary. -/
theorem c3_counterexample :
    (call_groq_api (fun _ => GroqResponse.timeout)).result =
      Except.error "requests.exceptions.Timeout" ∧
    ∀ s, (call_groq_api (fun _ => GroqResponse.timeout)).result ≠ Except.ok s := by
  refine ⟨rfl, ?_⟩
  intro s hs
  simp [call_groq_api, groqLoopY] at hs

/-- Claim C3 amended: the webpage client `call_groq_api_for_webpage`
returns the distinguishable timeout error string on a transport timeout
without retrying and without raising, converts every expected failure mode
(timeout, rate limit, bad status, other exception) into a result value,
and in fact never raises; the youtube client `call_groq_api` converts rate
limits and bad statuses into result values but has no exception handler,
so a transport timeout or any other transport exception propagates past
its boundary. -/
theorem c3_amended_error_conversion (resp : Nat → GroqResponse) :
    (resp 0 = GroqResponse.timeout →
      call_groq_api_for_webpage resp =
        ⟨Except.ok "Error: Request timeout. Please try again.", [], 1⟩) ∧
    (∀ m, resp 0 = GroqResponse.exc m →
      call_groq_api_for_webpage resp = ⟨Except.ok ("Error: " ++ m), [], 1⟩) ∧
    (∀ code body, resp 0 = GroqResponse.badStatus code body →
      call_groq_api_for_webpage resp =
        ⟨Except.ok ("Error: " ++ toString code ++ ", " ++ body), [], 1⟩ ∧
      call_groq_api resp =
        ⟨Except.ok ("Error: " ++ toString code ++ ", " ++ body), [], 1⟩) ∧
    (∀ r : Nat → GroqResponse, ∃ s,
      (call_groq_api_for_webpage r).result = Except.ok s) ∧
    (resp 0 = GroqResponse.timeout →
      (call_groq_api resp).result = Except.error "requests.exceptions.Timeout") ∧
    (∀ m, resp 0 = GroqResponse.exc m →
      (call_groq_api resp).result = Except.error m) := by
  refine ⟨?_, ?_, ?_, fun r => groqLoopW_ok r [0, 1, 2], ?_, ?_⟩
  · intro h
    simp [call_groq_api_for_webpage, groqLoopW, h]
  · intro m h
    simp [call_groq_api_for_webpage, groqLoopW, h]
  · intro code body h
    constructor <;> simp [call_groq_api_for_webpage, call_groq_api, groqLoopW, groqLoopY, h]
  · intro h
    simp [call_groq_api, groqLoopY, h]
  · intro m h
    simp [call_groq_api, groqLoopY, h]

/-- Witness for C3 amended: at the concrete all-timeout response sequence,
the webpage client returns the timeout error string with no sleep and a
single POST attempt. -/
theorem c3_amended_error_conversion_witness :
    call_groq_api_for_webpage (fun _ => GroqResponse.timeout) =
      ⟨Except.ok "Error: Request timeout. Please try again.", [], 1⟩ :=
  (c3_amended_error_conversion (fun _ => GroqResponse.timeout)).1 rfl

/-- Claim C5 counterexample: on an HTTP 200 response whose
`choices[0].message.content` field is structurally present but equal to
the empty string, both clients return the empty string, not the
placeholder "No response from model." — the dict-get default only applies
when the field is absent. -/
theorem c5_counterexample :
    (call_groq_api (fun _ => GroqResponse.success (some ""))).result =
      Except.ok "" ∧
    (call_groq_api_for_webpage (fun _ => GroqResponse.success (some ""))).result =
      Except.ok "" ∧
    ("" : String) ≠ "No response from model." :=
  ⟨rfl, rfl, by decide⟩

/-- Claim C5 amended: a successful response returns the stripped extracted
payload; the placeholder "No response from model." is returned when the
text payload is structurally absent, while a structurally present but
empty payload yields the empty string rather than the placeholder. -/
theorem c5_amended_placeholder (resp : Nat → GroqResponse) (c : Option String) :
    (resp 0 = GroqResponse.success c →
      (call_groq_api resp).result = Except.ok (extractContent c) ∧
      (call_groq_api_for_webpage resp).result = Except.ok (extractContent c)) ∧
    extractContent none = "No response from model." ∧
    extractContent (some "") = "" := by
  refine ⟨fun h => ⟨?_, ?_⟩, by decide, rfl⟩
  · simp [call_groq_api, groqLoopY, h]
  · simp [call_groq_api_for_webpage, groqLoopW, h]

/-- Witness for C5 amended: a 200 response with the content field absent
evaluates to the placeholder string. -/
theorem c5_amended_placeholder_witness :
    (call_groq_api (fun _ => GroqResponse.success none)).result =
      Except.ok "No response from model." := by
  have h := ((c5_amended_placeholder (fun _ => GroqResponse.success none) none).1 rfl).1
  exact h.trans (congrArg Except.ok (by decide))

/-- Unrolling the load_documents fold against the spec-side concatenation:
whatever the accumulator, the fold appends exactly the spec concatenation. -/
theorem load_documents_foldl (load : String → Except String (List Record)) :
    ∀ (files : List String) (acc : List Record),
      files.foldl (loadStep load) acc = acc ++ loader_spec_concat load files := by
  intro files
  induction files with
  | nil => intro acc; simp [loader_spec_concat]
  | cons f fs ih =>
    intro acc
    simp only [List.foldl_cons, loader_spec_concat]
    rw [ih]
    unfold loadStep
    by_cases hrec : pyLower (splitextExt f) ∈ loader_map_exts
    · rw [if_pos hrec, if_pos hrec]
      cases hload : load f with
      | ok ds => simp [List.append_assoc]
      | error e => simp
    · rw [if_neg hrec, if_neg hrec]
      simp

/-- An all-failures listing contributes nothing to the spec concatenation. -/
theorem loader_spec_concat_all_errors (load : String → Except String (List Record)) :
    ∀ fs : List String, (∀ f ∈ fs, ∃ e, load f = Except.error e) →
      loader_spec_concat load fs = [] := by
  intro fs
  induction fs with
  | nil => intro _; rfl
  | cons f fs ih =>
    intro hall
    obtain ⟨e, he⟩ := hall f (by simp)
    have hrest := ih (fun g hg => hall g (by simp [hg]))
    simp [loader_spec_concat, he, hrest]

/-- Claim C8: load_documents processes only files whose lowercased
extension is one of .pdf, .docx, .txt, .csv, .html, .md, silently skips
unrecognized extensions, tolerates any single file extraction failure
without aborting the batch, and returns the concatenation of the records
of all successfully loaded recognized files in listing order; in
particular an all-failures batch yields the empty list, not an error. -/
theorem c8_loader_best_effort (load : String → Except String (List Record))
    (files : List String) :
    load_documents load files = loader_spec_concat load files ∧
    (∀ f fs, pyLower (splitextExt f) ∉ loader_map_exts →
      loader_spec_concat load (f :: fs) = loader_spec_concat load fs) ∧
    (∀ f fs, (∃ e, load f = Except.error e) →
      loader_spec_concat load (f :: fs) = loader_spec_concat load fs) ∧
    ((∀ f ∈ files, ∃ e, load f = Except.error e) →
      load_documents load files = []) := by
  have hrefine : load_documents load files = loader_spec_concat load files := by
    unfold load_documents
    rw [load_documents_foldl]
    simp
  refine ⟨hrefine, ?_, ?_, ?_⟩
  · intro f fs hnot
    simp [loader_spec_concat, hnot]
  · intro f fs ⟨e, he⟩
    simp [loader_spec_concat, he]
  · intro hall
    rw [hrefine]
    exact loader_spec_concat_all_errors load files hall

/-- Witness for C8: a directory with one recognized and one unrecognized
file where every extraction raises yields the empty record list. -/
theorem c8_loader_best_effort_witness :
    load_documents (fun _ => Except.error "corrupt file") ["a.pdf", "b.xyz"] = [] :=
  (c8_loader_best_effort (fun _ => Except.error "corrupt file")
    ["a.pdf", "b.xyz"]).2.2.2 (fun _ _ => ⟨"corrupt file", rfl⟩)

/-- Claim C1 counterexample: for an empty directory, load_documents does
return the empty list and process_documents does return the None sentinel,
but create_qa_chain applied to that sentinel — the only way the code can
build a queryable pipeline, and exactly what app.py does next — raises an
AttributeError instead of producing a chain, so no subsequent query can
return the claimed deterministic "no documents" answer. -/
theorem c1_counterexample :
    load_documents (fun _ => Except.error "unused") [] = [] ∧
    process_documents (fun ds => ds) (fun _ => ())
      (load_documents (fun _ => Except.error "unused") []) = none ∧
    (∀ chain : QaChain Unit, create_qa_chain (none : Option Unit) ≠ Except.ok chain) ∧
    create_qa_chain (none : Option Unit) =
      Except.error "AttributeError: \x27NoneType\x27 object has no attribute \x27as_retriever\x27" := by
  refine ⟨rfl, rfl, ?_, rfl⟩
  intro chain h
  simp [create_qa_chain] at h

/-- Claim C1 amended: for an empty document directory, load_documents
returns the empty list and process_documents on it returns the None
sentinel (neither an error nor an exception); create_qa_chain applied to
the sentinel then fails with an AttributeError rather than producing a
chain, so no query path exists and the completion capability is never
invoked — there is no deterministic "no documents" answer. -/
theorem c1_amended_empty_directory (V : Type)
    (load : String → Except String (List Record))
    (split : List Record → List Record) (fromDocuments : List Record → V) :
    load_documents load [] = [] ∧
    process_documents split fromDocuments (load_documents load []) = none ∧
    (∃ msg, create_qa_chain (none : Option V) = Except.error msg) ∧
    (∀ chain : QaChain V, create_qa_chain (none : Option V) ≠ Except.ok chain) := by
  refine ⟨rfl, rfl, ⟨_, rfl⟩, ?_⟩
  intro chain h
  simp [create_qa_chain] at h

/-- Witness for C1 amended: at a concrete vector-store type and concrete
loader and splitter capabilities, the empty listing produces the None
sentinel and chain creation on the sentinel is an error. -/
theorem c1_amended_empty_directory_witness :
    process_documents (fun ds => ds) (fun _ => (0 : Nat))
      (load_documents (fun _ => Except.error "empty dir") []) = none ∧
    (∃ msg, create_qa_chain (none : Option Nat) = Except.error msg) :=
  ⟨(c1_amended_empty_directory Nat (fun _ => Except.error "empty dir")
      (fun ds => ds) (fun _ => 0)).2.1,
    (c1_amended_empty_directory Nat (fun _ => Except.error "empty dir")
      (fun ds => ds) (fun _ => 0)).2.2.1⟩

/-- Claim C6: the chain built by create_qa_chain retrieves with k = 5, and
every completion request it renders — for every retrieved context and
every question — contains the anti-hallucination instruction verbatim,
the instruction that restricts answers to the provided context and
mandates the fixed fallback phrase. -/
theorem c6_prompt_and_k (V : Type) (vs : V) (context question : String) :
    create_qa_chain (some vs) = Except.ok ⟨vs, 5, prompt_template⟩ ∧
    (∀ chain : QaChain V, create_qa_chain (some vs) = Except.ok chain →
      chain.k = 5 ∧ chain.render = prompt_template) ∧
    (∃ pre post, prompt_template context question =
      pre ++ antiHallucinationInstruction ++ post) := by
  refine ⟨rfl, ?_, ?_⟩
  · intro chain h
    rw [show create_qa_chain (some vs) = Except.ok ⟨vs, 5, prompt_template⟩ from rfl] at h
    injection h with h2
    exact ⟨by rw [← h2], by rw [← h2]⟩
  · refine ⟨system_prompt ++ "\n\n",
      "\n\n" ++ "Context:\n" ++ context ++ "\n\n" ++ "Question:\n" ++ question ++
        "\n\nAnswer:", ?_⟩
    simp [prompt_template, str_append_assoc]

/-- Witness for C6: at a concrete vector store, chain creation succeeds
with k = 5, and the concrete rendered prompt contains the
anti-hallucination instruction verbatim. -/
theorem c6_prompt_and_k_witness :
    create_qa_chain (some (0 : Nat)) = Except.ok ⟨0, 5, prompt_template⟩ ∧
    (∃ pre post, prompt_template "some context" "some question" =
      pre ++ antiHallucinationInstruction ++ post) :=
  ⟨(c6_prompt_and_k Nat 0 "some context" "some question").1,
    (c6_prompt_and_k Nat 0 "some context" "some question").2.2⟩

/-- Claim C7: chunk_webpage_content returns the empty sequence on empty
content, and a single unmodified chunk when the content is nonempty and
shorter than chunk_size, never consulting the text splitter in either
case. -/
theorem c7_chunk_degenerate (splitText : String → List String)
    (content : String) (chunk_size : Nat) :
    (content = "" → chunk_webpage_content splitText content chunk_size = []) ∧
    (content ≠ "" → content.length < chunk_size →
      chunk_webpage_content splitText content chunk_size = [content]) := by
  constructor
  · intro h
    simp [chunk_webpage_content, h]
  · intro h hl
    simp [chunk_webpage_content, h, hl]

/-- Witness for C7: a 3-character content with chunk_size 2000 yields one
chunk equal to the input. -/
theorem c7_chunk_degenerate_witness :
    chunk_webpage_content (fun _ => []) "abc" 2000 = ["abc"] :=
  (c7_chunk_degenerate (fun _ => []) "abc" 2000).2 (by decide) (by decide)

/-- Claim C9: for every question, if the chain invocation raises any
exception, query catches it and returns the human-readable string
`"Error processing query: " ++ str(e)` as the literal answer text, and on
success it returns the result field; in either case the operation returns
a string — no exception escapes it. -/
theorem c9_query_catches (invoke : String → Except String String)
    (question : String) :
    (∀ e, invoke question = Except.error e →
      query invoke question = "Error processing query: " ++ e) ∧
    (∀ r, invoke question = Except.ok r → query invoke question = r) := by
  constructor
  · intro e h
    simp [query, h]
  · intro r h
    simp [query, h]

/-- Witness for C9: a chain whose invocation raises the exception "boom"
makes query return the formatted error answer. -/
theorem c9_query_catches_witness :
    query (fun _ => Except.error "boom") "any question" =
      "Error processing query: boom" := by
  have h := (c9_query_catches (fun _ => Except.error "boom") "any question").1 "boom" rfl
  exact h

/-- The per-chunk summarization loop produces one summary per chunk. -/
theorem pySummaries_length (complete : String → String → String) (n : Nat) :
    ∀ (chunks : List String) (i : Nat),
      (pySummaries complete n i chunks).length = chunks.length := by
  intro chunks
  induction chunks with
  | nil => intro i; rfl
  | cons c cs ih => intro i; simp [pySummaries, ih]

/-- The call log of the per-chunk loop has one entry per chunk. -/
theorem pyCalls_length (n : Nat) :
    ∀ (chunks : List String) (i : Nat),
      (pyCalls n i chunks).length = chunks.length := by
  intro chunks
  induction chunks with
  | nil => intro i; rfl
  | cons c cs ih => intro i; simp [pyCalls, ih]

/-- The labelling comprehension keeps the length of its input. -/
theorem pyLabel_length :
    ∀ (ss : List String) (i : Nat), (pyLabel i ss).length = ss.length := by
  intro ss
  induction ss with
  | nil => intro i; rfl
  | cons s ss ih => intro i; simp [pyLabel, ih]

/-- Element j of the labelling comprehension is element j of the input,
prefixed with its one-based part number. -/
theorem pyLabel_get? :
    ∀ (ss : List String) (i j : Nat),
      (pyLabel i ss).get? j =
        (ss.get? j).map (fun s => "Part " ++ toString (i + j + 1) ++ ": " ++ s) := by
  intro ss
  induction ss with
  | nil => intro i j; simp [pyLabel]
  | cons s ss ih =>
    intro i j
    cases j with
    | zero => simp [pyLabel]
    | succ j =>
      simp only [pyLabel, List.get?_cons_succ]
      rw [ih (i + 1) j]
      have harith : i + 1 + j + 1 = i + (j + 1) + 1 := by omega
      rw [harith]

/-- Element j of the per-chunk summaries is the completion of chunk j with
the position-dependent instruction. -/
theorem pySummaries_get? (complete : String → String → String) (n : Nat) :
    ∀ (chunks : List String) (i j : Nat),
      (pySummaries complete n i chunks).get? j =
        (chunks.get? j).map (fun c => complete (chunkPrompt n (i + j)) c) := by
  intro chunks
  induction chunks with
  | nil => intro i j; simp [pySummaries]
  | cons c cs ih =>
    intro i j
    cases j with
    | zero => simp [pySummaries]
    | succ j =>
      simp only [pySummaries, List.get?_cons_succ]
      rw [ih (i + 1) j]
      have harith : i + 1 + j = i + (j + 1) := by omega
      rw [harith]

/-- Claim C4: for a single chunk the hierarchical summarizer issues exactly
one completion call, with the comprehensive single-pass instruction, and
that call output is the final result; for N > 1 chunks it issues exactly
N + 1 calls, the final call uses the fold instruction and its input is the
blank-line join of all N partial summaries labelled "Part 1" .. "Part N"
in original order, and the final call output is the result. -/
theorem c4_hierarchical_fold (complete : String → String → String)
    (chunks : List String) :
    (chunks.length = 1 →
      summarize_webpage_core complete chunks =
        (complete comprehensive_prompt (chunks.headD ""),
          [(comprehensive_prompt, chunks.headD "")])) ∧
    (1 < chunks.length →
      (summarize_webpage_core complete chunks).2.length = chunks.length + 1 ∧
      (summarize_webpage_core complete chunks).2.getLast? =
        some (final_prompt,
          String.intercalate "\n\n"
            (pyLabel 0 (pySummaries complete chunks.length 0 chunks))) ∧
      (summarize_webpage_core complete chunks).1 =
        complete final_prompt
          (String.intercalate "\n\n"
            (pyLabel 0 (pySummaries complete chunks.length 0 chunks))) ∧
      (pyLabel 0 (pySummaries complete chunks.length 0 chunks)).length =
        chunks.length ∧
      (∀ j, j < chunks.length →
        (pyLabel 0 (pySummaries complete chunks.length 0 chunks)).get? j =
          some ("Part " ++ toString (j + 1) ++ ": " ++
            complete (chunkPrompt chunks.length j) ((chunks.get? j).getD "")))) := by
  constructor
  · intro h
    match chunks, h with
    | [c], _ =>
      simp [summarize_webpage_core, pySummaries, pyCalls, chunkPrompt,
        comprehensive_prompt]
  · intro h
    have hS : (pySummaries complete chunks.length 0 chunks).length = chunks.length :=
      pySummaries_length complete chunks.length chunks 0
    have hcond : 1 < (pySummaries complete chunks.length 0 chunks).length := by
      rw [hS]; exact h
    have hcore : summarize_webpage_core complete chunks =
        (complete final_prompt
          (String.intercalate "\n\n"
            (pyLabel 0 (pySummaries complete chunks.length 0 chunks))),
         pyCalls chunks.length 0 chunks ++
           [(final_prompt,
             String.intercalate "\n\n"
               (pyLabel 0 (pySummaries complete chunks.length 0 chunks)))]) := by
      simp [summarize_webpage_core, hcond]
    rw [hcore]
    refine ⟨?_, ?_, rfl, ?_, ?_⟩
    · simp [pyCalls_length]
    · simp
    · rw [pyLabel_length, hS]
    · intro j hj
      rw [pyLabel_get?, pySummaries_get?, List.get?_eq_get hj]
      simp

/-- Witness for C4: a concrete two-chunk input makes the summarizer issue
exactly 2 + 1 completion calls, and for the single-chunk input exactly one
call whose instruction is the comprehensive variant. -/
theorem c4_hierarchical_fold_witness :
    (summarize_webpage_core (fun p c => p ++ " // " ++ c) ["alpha", "beta"]).2.length = 3 ∧
    summarize_webpage_core (fun p c => p ++ " // " ++ c) ["solo"] =
      ((fun p c => p ++ " // " ++ c) comprehensive_prompt "solo",
        [(comprehensive_prompt, "solo")]) := by
  constructor
  · exact ((c4_hierarchical_fold (fun p c => p ++ " // " ++ c)
      ["alpha", "beta"]).2 (by decide)).1
  · exact (c4_hierarchical_fold (fun p c => p ++ " // " ++ c) ["solo"]).1 rfl

/-- One grouping step never raises and preserves the grouping invariant:
when the 30-second condition triggers, the pending text is nonempty and is
flushed under the assigned label; otherwise the text only accumulates. -/
theorem groupStep_inv (ts0 : String) (st : GroupState) (it : TranscriptItem)
    (h : GroupInv ts0 st) :
    ∃ st', groupStep st it = Except.ok st' ∧ GroupInv ts0 st' := by
  obtain ⟨h1, h2, h3⟩ := h
  obtain ⟨l, hl⟩ := Option.isSome_iff_exists.mp h1
  unfold groupStep
  by_cases hc : 30 ≤ it.start - st.lastTimestamp
  · rw [if_pos hc, if_pos h2, hl]
    refine ⟨_, rfl, rfl, by simp, ?_⟩
    rcases h3 with h3 | ⟨h3a, h3b⟩
    · left
      cases htr : st.transcript with
      | nil => rw [htr] at h3; simp at h3
      | cons p ps =>
        rw [htr] at h3
        simpa using h3
    · left
      rw [h3a]
      have hlts : l = ts0 := by
        rw [hl] at h3b
        exact Option.some.inj h3b
      simp [hlts]
  · rw [if_neg hc]
    refine ⟨_, rfl, h1, by simp [h2], h3⟩

/-- The grouping loop never raises and preserves the invariant. -/
theorem groupLoop_inv (ts0 : String) :
    ∀ (items : List TranscriptItem) (st : GroupState), GroupInv ts0 st →
      ∃ st', groupLoop st items = Except.ok st' ∧ GroupInv ts0 st' := by
  intro items
  induction items with
  | nil => intro st h; exact ⟨st, rfl, h⟩
  | cons it rest ih =>
    intro st h
    obtain ⟨st1, hstep, hinv⟩ := groupStep_inv ts0 st it h
    obtain ⟨st', hloop, hinv'⟩ := ih st1 hinv
    exact ⟨st', by simp [groupLoop, hstep, hloop], hinv'⟩

/-- Claim C10: for every nonempty transcript whose entries all have
nonnegative start times, the sentinel initial value -30 forces the
grouping condition on the very first entry (start - (-30) is at least 30
whenever start is nonnegative), the pending text is still empty there so
the label variable is never read before assignment (the run never raises
UnboundLocalError), and the first emitted group is labelled with the first
formatted timestamp of the first entry. -/
theorem c10_first_label (it0 : TranscriptItem) (rest : List TranscriptItem)
    (h : ∀ it ∈ it0 :: rest, 0 ≤ it.start) :
    ∃ groups, extract_transcript_grouping (it0 :: rest) = Except.ok groups ∧
      groups ≠ [] ∧
      groups.head?.map Prod.fst = some (fmtTimestamp it0.start) := by
  have h0 : 0 ≤ it0.start := h it0 (by simp)
  have hcond : 30 ≤ it0.start - (-30 : ℚ) := by linarith
  have hstep : groupStep (GroupState.mk [] (-30) none []) it0 =
      Except.ok (GroupState.mk [] it0.start (some (fmtTimestamp it0.start))
        [it0.text]) := by
    unfold groupStep
    rw [if_pos hcond, if_neg (by simp)]
    rfl
  have hinv1 : GroupInv (fmtTimestamp it0.start)
      (GroupState.mk [] it0.start (some (fmtTimestamp it0.start)) [it0.text]) :=
    ⟨rfl, by simp, Or.inr ⟨rfl, rfl⟩⟩
  obtain ⟨stf, hloop, hinv⟩ :=
    groupLoop_inv (fmtTimestamp it0.start) rest
      (GroupState.mk [] it0.start (some (fmtTimestamp it0.start)) [it0.text]) hinv1
  have hrun : groupLoop (GroupState.mk [] (-30) none []) (it0 :: rest) =
      Except.ok stf := by
    simp [groupLoop, hstep, hloop]
  obtain ⟨h1, h2, h3⟩ := hinv
  obtain ⟨l, hl⟩ := Option.isSome_iff_exists.mp h1
  refine ⟨stf.transcript ++ [(l, String.intercalate " " stf.tempText)], ?_, by simp, ?_⟩
  · simp [extract_transcript_grouping, hrun, h2, hl]
  · rcases h3 with h3 | ⟨h3a, h3b⟩
    · cases htr : stf.transcript with
      | nil => rw [htr] at h3; simp at h3
      | cons p ps =>
        rw [htr] at h3
        simpa using h3
    · rw [h3a]
      have hlts : l = fmtTimestamp it0.start := by
        rw [hl] at h3b
        exact Option.some.inj h3b
      simp [hlts]

/-- Witness for C10: the concrete transcript with entries at 0s and 35s is
nonempty with nonnegative start times, its grouping succeeds, and the
first group is labelled with the timestamp of the first entry. -/
theorem c10_first_label_witness :
    ∃ groups,
      extract_transcript_grouping
        [TranscriptItem.mk 0 "hello", TranscriptItem.mk 35 "world"] =
        Except.ok groups ∧ groups ≠ [] ∧
      groups.head?.map Prod.fst =
        some (fmtTimestamp (TranscriptItem.mk 0 "hello").start) := by
  refine c10_first_label (TranscriptItem.mk 0 "hello")
    [TranscriptItem.mk 35 "world"] ?_
  intro it hit
  simp only [List.mem_cons, List.mem_singleton, List.not_mem_nil, or_false] at hit
  rcases hit with rfl | rfl
  · norm_num
  · norm_num

end MultiSource






